import Mathlib

/-!
Shallow embedding of the zenoh storage-manager plugin
(`plugins/zenoh-plugin-storage-manager/src/lib.rs`): the runtime
orchestrator `StorageRuntimeInner` with its volume/storage maps, the
configuration-diff applier `update`, the volume/storage spawn and kill
operations, and the `with_extended_string` helper used by the admin-space
getter.

Modelling conventions:
* `HashMap` is embedded as an association list with insert-replace
  semantics (`mapInsert` prepends after erasing the key, matching
  `HashMap::insert`'s replace behaviour observationally through lookups).
* Dynamically loaded libraries, backend instances and storage control
  handles (`Sender<StorageMessage>`) are opaque identity tokens (`Nat`).
* External collaborators that live outside this crate — `LibLoader`
  (`load_file`, `search_and_load`), the backend entry point obtained via
  `Library::get`, `create_memory_backend`, and
  `create_and_start_storage` — are fields of an `Env` record; the
  orchestrator logic itself is translated line by line from the source.
* `ZResult<T>` is `Except String T`; `bail!` is `Except.error` of the
  formatted message.
* Message sends performed by the kill operations are returned as an
  explicit list of sent messages (second component); they have no effect
  on the orchestrator's own state.
-/

/-- `ZResult<T>` from `zenoh_core`: success or an error message. -/
abbrev ZResult (α : Type) := Except String α

/-- Association-list lookup keyed by strings, embedding `HashMap::get`. -/
def mapLookup {α : Type} (k : String) : List (String × α) → Option α
  | [] => none
  | (k', v) :: rest => if k' = k then some v else mapLookup k rest

/-- Remove every binding of key `k`, embedding `HashMap::remove`'s effect
on the map contents. -/
def mapErase {α : Type} (k : String) : List (String × α) → List (String × α)
  | [] => []
  | (k', v) :: rest =>
      if k' = k then mapErase k rest else (k', v) :: mapErase k rest

/-- Insert-replace, embedding `HashMap::insert`: the new binding shadows
and removes any previous binding of the same key. -/
def mapInsert {α : Type} (k : String) (v : α) (m : List (String × α)) :
    List (String × α) :=
  (k, v) :: mapErase k m

@[simp] theorem mapLookup_nil {α : Type} (k : String) :
    mapLookup (α := α) k [] = none := rfl

@[simp] theorem mapErase_nil {α : Type} (k : String) :
    mapErase (α := α) k [] = [] := rfl

theorem mapLookup_erase {α : Type} (k j : String) (m : List (String × α)) :
    mapLookup k (mapErase j m) = if j = k then none else mapLookup k m := by
  induction m with
  | nil => simp
  | cons hd tl ih =>
      obtain ⟨k', v⟩ := hd
      by_cases hkj : k' = j
      · subst hkj
        by_cases hk : k' = k
        · subst hk
          simp [mapErase, ih]
        · simp [mapErase, mapLookup, hk, ih]
      · by_cases hk : k' = k
        · subst hk
          have hjk : ¬(j = k') := fun h => hkj h.symm
          simp [mapErase, mapLookup, hkj, hjk]
        · simp [mapErase, mapLookup, hkj, hk, ih]

theorem mapLookup_insert {α : Type} (k j : String) (v : α)
    (m : List (String × α)) :
    mapLookup k (mapInsert j v m) =
      if j = k then some v else mapLookup k m := by
  by_cases h : j = k
  · subst h
    simp [mapInsert, mapLookup]
  · simp [mapInsert, mapLookup, h, mapLookup_erase]

theorem mapLookup_insert_self {α : Type} (k : String) (v : α)
    (m : List (String × α)) : mapLookup k (mapInsert k v m) = some v := by
  simp [mapLookup_insert]

/-- Key presence survives an insert (the insert either replaces this very
key or leaves its binding alone). -/
theorem mapLookup_insert_isSome {α : Type} (k j : String) (v : α)
    (m : List (String × α)) (h : (mapLookup k m).isSome) :
    (mapLookup k (mapInsert j v m)).isSome := by
  rw [mapLookup_insert]
  by_cases hj : j = k <;> simp [hj, h]

/-- `VolumeConfig` from `zenoh_backend_traits::config` (the crate is not
part of this repository's sources; fields follow the construction in
`StorageRuntimeInner::new` and the spec's data model: identity, backend
selection by name or by explicit paths, backend-specific settings, and
the `required` flag). -/
structure VolumeConfig where
  name : String
  backend : Option String
  paths : Option (List String)
  required : Bool
  rest : List (String × String)
deriving DecidableEq, Repr

/-- `StorageConfig` from `zenoh_backend_traits::config` (outside this
repository's sources; fields follow the uses in `spawn_storage` /
`kill_storage` and the spec's data model: identity, owning volume, the
stored key-expression). -/
structure StorageConfig where
  name : String
  volume_id : String
  key_expr : String
deriving DecidableEq, Repr

/-- `ConfigDiff` from `zenoh_backend_traits::config`: the four variants
matched by `StorageRuntimeInner::update`. -/
inductive ConfigDiff where
  | DeleteVolume (volume : VolumeConfig)
  | AddVolume (volume : VolumeConfig)
  | DeleteStorage (config : StorageConfig)
  | AddStorage (config : StorageConfig)
deriving DecidableEq, Repr

/-- `BackendSearchMethod` from `zenoh_backend_traits::config`. -/
inductive BackendSearchMethod where
  | ByPaths (paths : List String)
  | ByName (backend : String)
deriving DecidableEq, Repr

/-- Modelled from the spec: `VolumeConfig::backend_search_method` lives in
`zenoh_backend_traits::config`, outside this repository's sources. The
spec's Backend Loader resolves "via the config's backend-selection mode:
by explicit paths ... or by name"; explicit paths take priority when
present, otherwise the backend name (defaulting to the volume name) is
searched. -/
def VolumeConfig.backend_search_method (c : VolumeConfig) :
    BackendSearchMethod :=
  match c.paths with
  | some ps => .ByPaths ps
  | none => .ByName (c.backend.getD c.name)

/-- `StorageMessage` from `storages_mgt`: the two control messages a
storage worker accepts. The `GetStatus` reply channel is an opaque
token. -/
inductive StorageMessage where
  | Stop
  | GetStatus (reply : Nat)
deriving DecidableEq, Repr

/-- A message sent to a storage control handle (handle token, message). -/
abbrev SentMsg := Nat × StorageMessage

/-- `VolumeHandle`: one loaded backend plus the optional library that
produced it, its resolved path, and the liveness flag set by `new`. -/
structure VolumeHandle where
  backend : Nat
  lib : Option Nat
  lib_path : String
  stopper : Bool
deriving DecidableEq, Repr

/-- `VolumeHandle::new`: wraps a backend, an optional library and a path;
the stopper flag starts out true. -/
def VolumeHandle.new (backend : Nat) (lib : Option Nat) (lib_path : String) :
    VolumeHandle :=
  { backend := backend, lib := lib, lib_path := lib_path, stopper := true }

/-- The external collaborators of the orchestrator, used but not defined
in `lib.rs`: `create_memory_backend` (module `memory_backend`),
`LibLoader::load_file` and `LibLoader::search_and_load` (`zenoh_util`),
the `CREATE_BACKEND_FN_NAME` entry-point lookup (`Library::get` composed
with invoking the entry point), and `create_and_start_storage`
(module `backends_mgt`, which also receives the backend's interceptors).
Each is an abstract function; successful loads return opaque library
tokens and resolved paths. -/
structure Env where
  create_memory_backend : VolumeConfig → ZResult Nat
  load_file : String → Option (Nat × String)
  search_and_load : String → Option (Nat × String)
  get_symbol : Nat → Option (VolumeConfig → ZResult Nat)
  create_and_start_storage : String → StorageConfig → VolumeHandle → ZResult Nat

/-- `MEMORY_BACKEND_NAME` from `lib.rs`. -/
def MEMORY_BACKEND_NAME : String := "memory"

/-- `BACKEND_LIB_PREFIX` from `lib.rs`. -/
def BACKEND_LIB_PREFIX : String := "zbackend_"

/-- `StorageRuntimeInner`: the orchestrator state. `runtime`, `session`
and `lib_loader` are externals folded into `Env`; `pid` stands for
`runtime.pid` (used only to build the status key). -/
structure StorageRuntimeInner where
  name : String
  pid : String
  volumes : List (String × VolumeHandle)
  storages : List (String × List (String × Nat))
deriving DecidableEq, Repr

namespace StorageRuntimeInner

/-- `StorageRuntimeInner::status_key`. -/
def status_key (s : StorageRuntimeInner) : String :=
  "/@/router/" ++ s.pid ++ "/status/plugins/" ++ s.name

/-- `loaded_backend_from_lib`: look up the backend-creation entry point in
the loaded library; if present, invoke it and register the resulting
handle (owning the library); otherwise fail naming the missing symbol.
Errors leave the state unchanged; success mutates `self.volumes`. -/
def loaded_backend_from_lib (env : Env) (s : StorageRuntimeInner)
    (volume_id : String) (config : VolumeConfig) (lib : Nat)
    (lib_path : String) : StorageRuntimeInner × ZResult Unit :=
  match env.get_symbol lib with
  | some create_backend =>
      match create_backend config with
      | .ok backend =>
          let volumes' :=
            mapInsert volume_id
              (VolumeHandle.new backend (some lib) lib_path) s.volumes
          ({ s with volumes := volumes' }, .ok ())
      | .error e =>
          (s, .error ("Failed to load Backend " ++ volume_id ++ " from "
            ++ lib_path ++ " : " ++ e))
  | none =>
      (s, .error ("Failed to instantiate volume " ++ volume_id ++ " from "
        ++ lib_path ++ " : function create_backend(VolumeConfig) not found in lib"))

/-- The `bail!` message of `spawn_volume`'s by-paths branch. -/
def pathsFailMsg (volume_id : String) (paths : List String) : String :=
  "Failed to find a suitable library for volume " ++ volume_id
    ++ " from paths: " ++ toString paths

/-- The `for path in paths` loop of `spawn_volume`'s `ByPaths` branch,
followed by the `bail!` that sits after the loop in the source: each path
is tried with `LibLoader::load_file`; on the first successful load,
`loaded_backend_from_lib` runs (its error propagates via `?`) and the
loop `break`s — after which control still falls through to the
unconditional `bail!`. -/
def spawn_volume_paths (env : Env) (s : StorageRuntimeInner)
    (volume_id : String) (config : VolumeConfig) (all_paths : List String) :
    List String → StorageRuntimeInner × ZResult Unit
  | [] => (s, .error (pathsFailMsg volume_id all_paths))
  | path :: restPaths =>
      match env.load_file path with
      | some (lib, resolved) =>
          match loaded_backend_from_lib env s volume_id config lib resolved with
          | (s', .ok _) => (s', .error (pathsFailMsg volume_id all_paths))
          | (s', .error e) => (s', .error e)
      | none => spawn_volume_paths env s volume_id config all_paths restPaths

/-- `spawn_volume`: register the built-in memory backend when the volume
is named `memory`; otherwise resolve by explicit paths or by name and
delegate to `loaded_backend_from_lib`. Errors return the state as already
mutated (the source mutates `self` in place before `bail!`/`?`). -/
def spawn_volume (env : Env) (s : StorageRuntimeInner)
    (config : VolumeConfig) : StorageRuntimeInner × ZResult Unit :=
  let volume_id := config.name
  if volume_id = MEMORY_BACKEND_NAME then
    match env.create_memory_backend config with
    | .ok backend =>
        let volumes' :=
          mapInsert volume_id
            (VolumeHandle.new backend none "<static-memory>") s.volumes
        ({ s with volumes := volumes' }, .ok ())
    | .error e => (s, .error e)
  else
    match config.backend_search_method with
    | .ByPaths paths => spawn_volume_paths env s volume_id config paths paths
    | .ByName backend_name =>
        match env.search_and_load ( BACKEND_LIB_PREFIX ++ backend_name) with
        | some (lib, resolved) =>
            loaded_backend_from_lib env s volume_id config lib resolved
        | none =>
            (s, .error ("Failed to find a suitable library for volume "
              ++ volume_id ++ " (was looking for <lib>" ++ BACKEND_LIB_PREFIX
              ++ backend_name ++ "<.so/.dll/.dylib>)"))

/-- `kill_volume`: remove the volume's storages map (sending every handle
a `Stop`), then drop the volume's handle. Returns the new state and the
messages sent. -/
def kill_volume (s : StorageRuntimeInner) (volume : VolumeConfig) :
    StorageRuntimeInner × List SentMsg :=
  let sent :=
    match mapLookup volume.name s.storages with
    | some inner => inner.map (fun p => (p.2, StorageMessage.Stop))
    | none => []
  ({ s with storages := mapErase volume.name s.storages,
            volumes := mapErase volume.name s.volumes },
   sent)

/-- `kill_storage`: look up the storage's control handle under its volume
and, when present, send it a `Stop`. The source reads the maps with
`get_mut` only: no entry is removed and the state is returned
unchanged. -/
def kill_storage (s : StorageRuntimeInner) (config : StorageConfig) :
    StorageRuntimeInner × List SentMsg :=
  match mapLookup config.volume_id s.storages with
  | some inner =>
      match mapLookup config.name inner with
      | some storage => (s, [(storage, StorageMessage.Stop)])
      | none => (s, [])
  | none => (s, [])

/-- `spawn_storage`: fail with "volume not found" when the owning volume
is absent; otherwise start the worker via `create_and_start_storage`
(which receives the admin key, the config and the backend with its
interceptors) and register the returned control handle under
`storages[volume][name]` (`entry().or_default().insert`). -/
def spawn_storage (env : Env) (s : StorageRuntimeInner)
    (storage : StorageConfig) : StorageRuntimeInner × ZResult Unit :=
  let admin_key := s.status_key ++ "/storages/" ++ storage.name
  let volume_id := storage.volume_id
  match mapLookup volume_id s.volumes with
  | some backend =>
      match env.create_and_start_storage admin_key storage backend with
      | .ok stopper =>
          let inner := (mapLookup volume_id s.storages).getD []
          let storages' :=
            mapInsert volume_id
              (mapInsert storage.name stopper inner) s.storages
          ({ s with storages := storages' }, .ok ())
      | .error e => (s, .error e)
  | none => (s, .error ("`" ++ volume_id ++ "` volume not found"))

/-- `update`: apply the diffs in order; deletions are infallible, and the
first failing addition aborts the remaining diffs, returning the error
with the state as mutated so far. (The `Stop` messages the deletions send
are side effects on the workers, not on this state.) -/
def update (env : Env) (s : StorageRuntimeInner) :
    List ConfigDiff → StorageRuntimeInner × ZResult Unit
  | [] => (s, .ok ())
  | diff :: rest =>
      match diff with
      | .DeleteVolume volume => update env (kill_volume s volume).1 rest
      | .AddVolume volume =>
          match spawn_volume env s volume with
          | (s', .ok _) => update env s' rest
          | (s', .error e) => (s', .error e)
      | .DeleteStorage config => update env (kill_storage s config).1 rest
      | .AddStorage config =>
          match spawn_storage env s config with
          | (s', .ok _) => update env s' rest
          | (s', .error e) => (s', .error e)

/-- The `VolumeConfig` for the built-in memory volume constructed inline
in `StorageRuntimeInner::new`. -/
def memoryVolumeConfig : VolumeConfig :=
  { name := "memory", backend := none, paths := none, required := false,
    rest := [] }

/-- `PluginConfig` (from `zenoh_backend_traits::config`, outside this
repository's sources): the fields destructured by
`StorageRuntimeInner::new`. `backend_search_dirs` only parameterises the
`LibLoader`, which is folded into `Env.search_and_load`. -/
structure PluginConfig where
  name : String
  volumes : List VolumeConfig
  storages : List StorageConfig
deriving DecidableEq, Repr

/-- `StorageRuntimeInner::new`: start from empty maps, spawn the built-in
memory volume, then apply `AddVolume` diffs for every configured volume
chained with `AddStorage` diffs for every configured storage; any error
aborts construction. -/
def new (env : Env) (pid : String) (config : PluginConfig) :
    ZResult StorageRuntimeInner :=
  let new_self : StorageRuntimeInner :=
    { name := config.name, pid := pid, volumes := [], storages := [] }
  match spawn_volume env new_self memoryVolumeConfig with
  | (s1, .ok _) =>
      match update env s1
          (config.volumes.map ConfigDiff.AddVolume
            ++ config.storages.map ConfigDiff.AddStorage) with
      | (s2, .ok _) => .ok s2
      | (_, .error e) => .error e
  | (_, .error e) => .error e

end StorageRuntimeInner

/-- `with_extended_string` from `lib.rs`, with Rust strings embedded as
character lists: record the prefix length, push every suffix, run the
closure on the extended string, then truncate back to the recorded
length. The closure's in-place mutation of the string is embedded as the
second component of its result. -/
def with_extended_string {R : Type} (pre : List Char)
    (suffixes : List (List Char)) (closure : List Char → R × List Char) :
    R × List Char :=
  let prefix_len := pre.length
  let extended := suffixes.foldl (fun acc suffix => acc ++ suffix) pre
  let res := closure extended
  (res.1, res.2.take prefix_len)

namespace StorageRuntimeInner

/-- The ownership invariant of the Runtime State: every volume key that
owns storage entries is itself a registered volume (no storage entry
whose owning volume is absent). -/
def storages_owned (s : StorageRuntimeInner) : Prop :=
  ∀ v : String, (mapLookup v s.storages).isSome → (mapLookup v s.volumes).isSome

theorem loaded_backend_from_lib_storages (env : Env) (s : StorageRuntimeInner)
    (volume_id : String) (config : VolumeConfig) (lib : Nat)
    (lib_path : String) :
    (loaded_backend_from_lib env s volume_id config lib lib_path).1.storages
      = s.storages := by
  unfold loaded_backend_from_lib
  split
  · split <;> rfl
  · rfl

theorem loaded_backend_from_lib_volumes_mono (env : Env)
    (s : StorageRuntimeInner) (volume_id : String) (config : VolumeConfig)
    (lib : Nat) (lib_path k : String)
    (h : (mapLookup k s.volumes).isSome) :
    (mapLookup k
      (loaded_backend_from_lib env s volume_id config lib lib_path).1.volumes).isSome := by
  unfold loaded_backend_from_lib
  split
  · split
    · exact mapLookup_insert_isSome _ _ _ _ h
    · exact h
  · exact h

theorem spawn_volume_paths_storages (env : Env) (volume_id : String)
    (config : VolumeConfig) (all_paths : List String) :
    ∀ (paths : List String) (s : StorageRuntimeInner),
      (spawn_volume_paths env s volume_id config all_paths paths).1.storages
        = s.storages := by
  intro paths
  induction paths with
  | nil => intro s; rfl
  | cons path rest ih =>
      intro s
      unfold spawn_volume_paths
      split
      · next lib resolved hload =>
          split
          · next s' u heq =>
              have hst := loaded_backend_from_lib_storages env s volume_id
                config lib resolved
              rw [heq] at hst
              exact hst
          · next s' e heq =>
              have hst := loaded_backend_from_lib_storages env s volume_id
                config lib resolved
              rw [heq] at hst
              exact hst
      · exact ih s

theorem spawn_volume_paths_volumes_mono (env : Env) (volume_id : String)
    (config : VolumeConfig) (all_paths : List String) (k : String) :
    ∀ (paths : List String) (s : StorageRuntimeInner),
      (mapLookup k s.volumes).isSome →
      (mapLookup k
        (spawn_volume_paths env s volume_id config all_paths paths).1.volumes).isSome := by
  intro paths
  induction paths with
  | nil => intro s h; exact h
  | cons path rest ih =>
      intro s h
      unfold spawn_volume_paths
      split
      · next lib resolved hload =>
          split
          · next s' u heq =>
              have hm := loaded_backend_from_lib_volumes_mono env s volume_id
                config lib resolved k h
              rw [heq] at hm
              exact hm
          · next s' e heq =>
              have hm := loaded_backend_from_lib_volumes_mono env s volume_id
                config lib resolved k h
              rw [heq] at hm
              exact hm
      · exact ih s h

theorem spawn_volume_storages (env : Env) (s : StorageRuntimeInner)
    (config : VolumeConfig) :
    (spawn_volume env s config).1.storages = s.storages := by
  unfold spawn_volume
  dsimp only
  split
  · split <;> rfl
  · split
    · exact spawn_volume_paths_storages env _ config _ _ s
    · split
      · exact loaded_backend_from_lib_storages env s _ config _ _
      · rfl

theorem spawn_volume_volumes_mono (env : Env) (s : StorageRuntimeInner)
    (config : VolumeConfig) (k : String)
    (h : (mapLookup k s.volumes).isSome) :
    (mapLookup k (spawn_volume env s config).1.volumes).isSome := by
  unfold spawn_volume
  dsimp only
  split
  · split
    · exact mapLookup_insert_isSome _ _ _ _ h
    · exact h
  · split
    · exact spawn_volume_paths_volumes_mono env _ config _ k _ s h
    · split
      · exact loaded_backend_from_lib_volumes_mono env s _ config _ _ k h
      · exact h

theorem spawn_storage_volumes (env : Env) (s : StorageRuntimeInner)
    (storage : StorageConfig) :
    (spawn_storage env s storage).1.volumes = s.volumes := by
  unfold spawn_storage
  dsimp only
  split
  · split <;> rfl
  · rfl

theorem kill_storage_state (s : StorageRuntimeInner) (config : StorageConfig) :
    (kill_storage s config).1 = s := by
  unfold kill_storage
  split
  · split <;> rfl
  · rfl

theorem spawn_volume_preserves_owned (env : Env) (s : StorageRuntimeInner)
    (config : VolumeConfig) (h : storages_owned s) :
    storages_owned (spawn_volume env s config).1 := by
  intro v hv
  rw [spawn_volume_storages] at hv
  exact spawn_volume_volumes_mono env s config v (h v hv)

theorem spawn_storage_preserves_owned (env : Env) (s : StorageRuntimeInner)
    (storage : StorageConfig) (h : storages_owned s) :
    storages_owned (spawn_storage env s storage).1 := by
  intro v hv
  rw [spawn_storage_volumes]
  revert hv
  unfold spawn_storage
  dsimp only
  split
  · next backend hvol =>
      split
      · intro hv
        rw [mapLookup_insert] at hv
        by_cases hveq : storage.volume_id = v
        · subst hveq
          simp [hvol]
        · rw [if_neg hveq] at hv
          exact h v hv
      · exact h v
  · exact h v

theorem kill_volume_preserves_owned (s : StorageRuntimeInner)
    (volume : VolumeConfig) (h : storages_owned s) :
    storages_owned (kill_volume s volume).1 := by
  intro v hv
  unfold kill_volume at hv ⊢
  dsimp only at hv ⊢
  rw [mapLookup_erase] at hv ⊢
  by_cases hveq : volume.name = v
  · rw [if_pos hveq] at hv
    simp at hv
  · rw [if_neg hveq] at hv ⊢
    exact h v hv

theorem kill_storage_preserves_owned (s : StorageRuntimeInner)
    (config : StorageConfig) (h : storages_owned s) :
    storages_owned (kill_storage s config).1 := by
  rw [kill_storage_state]
  exact h

/-- Claim C7: For every sequence of AddVolume/DeleteVolume/AddStorage/DeleteStorage
diffs applied by `update` to a runtime state satisfying the ownership
invariant, the resulting state (also when `update` stops early with an
error) still satisfies it: the state never contains a storage entry whose
owning volume is absent. -/
theorem update_preserves_storages_owned (env : Env) :
    ∀ (diffs : List ConfigDiff) (s : StorageRuntimeInner),
      storages_owned s → storages_owned (update env s diffs).1 := by
  intro diffs
  induction diffs with
  | nil => intro s h; exact h
  | cons diff rest ih =>
      intro s h
      cases diff with
      | DeleteVolume volume =>
          exact ih _ (kill_volume_preserves_owned s volume h)
      | AddVolume volume =>
          have hsp := spawn_volume_preserves_owned env s volume h
          show storages_owned
            (match spawn_volume env s volume with
              | (s', .ok _) => update env s' rest
              | (s', .error e) => (s', .error e)).1
          rcases hv : spawn_volume env s volume with ⟨s', r⟩
          rw [hv] at hsp
          cases r with
          | ok u => exact ih s' hsp
          | error e => exact hsp
      | DeleteStorage config =>
          exact ih _ (kill_storage_preserves_owned s config h)
      | AddStorage config =>
          have hsp := spawn_storage_preserves_owned env s config h
          show storages_owned
            (match spawn_storage env s config with
              | (s', .ok _) => update env s' rest
              | (s', .error e) => (s', .error e)).1
          rcases hv : spawn_storage env s config with ⟨s', r⟩
          rw [hv] at hsp
          cases r with
          | ok u => exact ih s' hsp
          | error e => exact hsp

/-- Whether a diff is an addition (the only fallible kind in `update`). -/
def addOnly : ConfigDiff → Bool
  | .AddVolume _ => true
  | .AddStorage _ => true
  | .DeleteVolume _ => false
  | .DeleteStorage _ => false

/-- Applying only `AddVolume`/`AddStorage` diffs never removes a volume
key: additions insert into the maps, they do not erase. -/
theorem update_addOnly_volumes_mono (env : Env) (k : String) :
    ∀ (diffs : List ConfigDiff) (s : StorageRuntimeInner),
      (∀ d ∈ diffs, addOnly d = true) →
      (mapLookup k s.volumes).isSome →
      (mapLookup k (update env s diffs).1.volumes).isSome := by
  intro diffs
  induction diffs with
  | nil => intro s _ h; exact h
  | cons diff rest ih =>
      intro s hall h
      cases diff with
      | DeleteVolume volume =>
          have := hall (ConfigDiff.DeleteVolume volume) (by simp)
          simp [addOnly] at this
      | DeleteStorage config =>
          have := hall (ConfigDiff.DeleteStorage config) (by simp)
          simp [addOnly] at this
      | AddVolume volume =>
          have hmono := spawn_volume_volumes_mono env s volume k h
          show (mapLookup k
            (match spawn_volume env s volume with
              | (s', .ok _) => update env s' rest
              | (s', .error e) => (s', .error e)).1.volumes).isSome
          rcases hv : spawn_volume env s volume with ⟨s', r⟩
          rw [hv] at hmono
          cases r with
          | ok u =>
              exact ih s' (fun d hd => hall d (List.mem_cons_of_mem _ hd)) hmono
          | error e => exact hmono
      | AddStorage config =>
          have heq := spawn_storage_volumes env s config
          show (mapLookup k
            (match spawn_storage env s config with
              | (s', .ok _) => update env s' rest
              | (s', .error e) => (s', .error e)).1.volumes).isSome
          rcases hv : spawn_storage env s config with ⟨s', r⟩
          rw [hv] at heq
          cases r with
          | ok u =>
              refine ih s' (fun d hd => hall d (List.mem_cons_of_mem _ hd)) ?_
              rw [heq]
              exact h
          | error e =>
              rw [heq]
              exact h

/-- Claim C8: For every batch of diffs, when applying one diff fails,
`update` stops there: the diffs after the failing one are never applied
(the result does not depend on them), the state mutations of the prefix
and of the failing diff itself remain in place (no rollback), and the
error is returned to the caller. -/
theorem update_stops_at_first_error (env : Env) :
    ∀ (ds1 : List ConfigDiff) (d : ConfigDiff) (ds2 : List ConfigDiff)
      (s s1 s2 : StorageRuntimeInner) (e : String),
      update env s ds1 = (s1, .ok ()) →
      update env s1 [d] = (s2, .error e) →
      update env s (ds1 ++ d :: ds2) = (s2, .error e) := by
  intro ds1
  induction ds1 with
  | nil =>
      intro d ds2 s s1 s2 e h1 h2
      have hs : s = s1 := congrArg Prod.fst h1
      subst hs
      cases d with
      | DeleteVolume volume =>
          exact absurd (congrArg Prod.snd h2) (by simp [update])
      | DeleteStorage config =>
          exact absurd (congrArg Prod.snd h2) (by simp [update])
      | AddVolume volume =>
          rw [List.nil_append]
          show (match spawn_volume env s volume with
              | (s', .ok _) => update env s' ds2
              | (s', .error e) => (s', .error e)) = (s2, .error e)
          have h2' : (match spawn_volume env s volume with
              | (s', .ok _) => update env s' []
              | (s', .error e) => (s', .error e)) = (s2, .error e) := h2
          rcases hv : spawn_volume env s volume with ⟨s', r⟩
          rw [hv] at h2'
          cases r with
          | ok u => exact absurd (congrArg Prod.snd h2') (by simp [update])
          | error e' => exact h2'
      | AddStorage config =>
          rw [List.nil_append]
          show (match spawn_storage env s config with
              | (s', .ok _) => update env s' ds2
              | (s', .error e) => (s', .error e)) = (s2, .error e)
          have h2' : (match spawn_storage env s config with
              | (s', .ok _) => update env s' []
              | (s', .error e) => (s', .error e)) = (s2, .error e) := h2
          rcases hv : spawn_storage env s config with ⟨s', r⟩
          rw [hv] at h2'
          cases r with
          | ok u => exact absurd (congrArg Prod.snd h2') (by simp [update])
          | error e' => exact h2'
  | cons d1 rest ih =>
      intro d ds2 s s1 s2 e h1 h2
      cases d1 with
      | DeleteVolume volume =>
          have h1' : update env (kill_volume s volume).1 rest = (s1, .ok ()) := h1
          exact ih d ds2 _ s1 s2 e h1' h2
      | DeleteStorage config =>
          have h1' : update env (kill_storage s config).1 rest = (s1, .ok ()) := h1
          exact ih d ds2 _ s1 s2 e h1' h2
      | AddVolume volume =>
          have h1' : (match spawn_volume env s volume with
              | (s', .ok _) => update env s' rest
              | (s', .error e) => (s', .error e)) = (s1, .ok ()) := h1
          show (match spawn_volume env s volume with
              | (s', .ok _) => update env s' (rest ++ d :: ds2)
              | (s', .error e) => (s', .error e)) = (s2, .error e)
          rcases hv : spawn_volume env s volume with ⟨s', r⟩
          rw [hv] at h1'
          cases r with
          | ok u => exact ih d ds2 s' s1 s2 e h1' h2
          | error e' => exact absurd (congrArg Prod.snd h1') (by simp)
      | AddStorage config =>
          have h1' : (match spawn_storage env s config with
              | (s', .ok _) => update env s' rest
              | (s', .error e) => (s', .error e)) = (s1, .ok ()) := h1
          show (match spawn_storage env s config with
              | (s', .ok _) => update env s' (rest ++ d :: ds2)
              | (s', .error e) => (s', .error e)) = (s2, .error e)
          rcases hv : spawn_storage env s config with ⟨s', r⟩
          rw [hv] at h1'
          cases r with
          | ok u => exact ih d ds2 s' s1 s2 e h1' h2
          | error e' => exact absurd (congrArg Prod.snd h1') (by simp)


/-- `spawn_volume` on a config named `memory` takes the built-in branch:
it constructs the in-memory backend and registers it (or fails with the
construction error). -/
theorem spawn_volume_memory (env : Env) (s : StorageRuntimeInner)
    (config : VolumeConfig) (hn : config.name = MEMORY_BACKEND_NAME) :
    spawn_volume env s config =
      match env.create_memory_backend config with
      | .ok backend =>
          ({ s with
              volumes :=
                mapInsert config.name
                  (VolumeHandle.new backend none "<static-memory>")
                  s.volumes },
           .ok ())
      | .error e => (s, .error e) := by
  unfold spawn_volume
  dsimp only
  rw [if_pos hn]

/-- `spawn_volume` on a non-memory volume with an empty explicit path list
reaches the unconditional `bail!` after the loop without mutating the
state. -/
theorem spawn_volume_empty_paths (env : Env) (s : StorageRuntimeInner)
    (v : VolumeConfig) (hname : v.name ≠ MEMORY_BACKEND_NAME)
    (hpaths : v.paths = some []) :
    spawn_volume env s v = (s, .error (pathsFailMsg v.name [])) := by
  have hm : v.backend_search_method = .ByPaths [] := by
    unfold VolumeConfig.backend_search_method
    rw [hpaths]
  unfold spawn_volume
  dsimp only
  rw [if_neg hname, hm]
  rfl

/-- Construction registers the built-in memory volume, and the diffs that
`new` applies afterwards are additions only, so the memory volume is
still registered in any successfully constructed state. -/
theorem new_memory_registered (env : Env) (pid : String)
    (config : PluginConfig) (s : StorageRuntimeInner)
    (h : new env pid config = .ok s) :
    (mapLookup "memory" s.volumes).isSome := by
  unfold new at h
  dsimp only at h
  rw [spawn_volume_memory env _ memoryVolumeConfig rfl] at h
  rcases hm : env.create_memory_backend memoryVolumeConfig with e | b
  · rw [hm] at h
    simp at h
  · rw [hm] at h
    dsimp only at h
    split at h
    · next s2 u heq =>
        cases h
        have hall : ∀ d ∈ (config.volumes.map ConfigDiff.AddVolume
            ++ config.storages.map ConfigDiff.AddStorage), addOnly d = true := by
          intro d hd
          rcases List.mem_append.mp hd with hc | hc
          · rcases List.mem_map.mp hc with ⟨w, _, rfl⟩
            rfl
          · rcases List.mem_map.mp hc with ⟨w, _, rfl⟩
            rfl
        have h2 := congrArg Prod.fst heq
        dsimp only at h2
        rw [← h2]
        apply update_addOnly_volumes_mono env "memory" _ _ hall
        simp [mapLookup_insert, memoryVolumeConfig]
    · simp at h

/-- Claim C2 (amended): `spawn_volume` performs no duplicate check. For a
runtime state in which a volume of the given name is already registered,
an `AddVolume` for that name whose backend loads (here: by name) does not
fail with an "already registered" error: it succeeds and the newly loaded
handle silently replaces the existing one. -/
theorem spawn_volume_replaces_registered (env : Env) (s : StorageRuntimeInner)
    (c : VolumeConfig) (old : VolumeHandle) (lib : Nat) (resolved : String)
    (create : VolumeConfig → ZResult Nat) (b : Nat)
    (hname : c.name ≠ MEMORY_BACKEND_NAME)
    (hpaths : c.paths = none)
    (hfound : env.search_and_load ( BACKEND_LIB_PREFIX ++ c.backend.getD c.name)
      = some (lib, resolved))
    (hsym : env.get_symbol lib = some create)
    (hok : create c = .ok b)
    (hreg : mapLookup c.name s.volumes = some old) :
    (spawn_volume env s c).2 = .ok () ∧
      mapLookup c.name (spawn_volume env s c).1.volumes =
        some (VolumeHandle.new b (some lib) resolved) := by
  have hm : c.backend_search_method = .ByName (c.backend.getD c.name) := by
    unfold VolumeConfig.backend_search_method
    rw [hpaths]
  have hsv : spawn_volume env s c =
      loaded_backend_from_lib env s c.name c lib resolved := by
    unfold spawn_volume
    dsimp only
    rw [if_neg hname, hm]
    dsimp only
    rw [hfound]
  have hlb : loaded_backend_from_lib env s c.name c lib resolved =
      ({ s with
          volumes :=
            mapInsert c.name (VolumeHandle.new b (some lib) resolved)
              s.volumes },
       .ok ()) := by
    unfold loaded_backend_from_lib
    rw [hsym]
    dsimp only
    rw [hok]
  rw [hsv, hlb]
  exact ⟨rfl, mapLookup_insert_self _ _ _⟩

/-- Claim C3 (amended): `kill_storage` looks up the storage's control
handle and, when present, sends it a `Stop` (best-effort), but it does
not remove the entry from the storages map: the runtime state is
returned unchanged, so the entry is still present after the operation. -/
theorem kill_storage_sends_stop_keeps_entry (s : StorageRuntimeInner)
    (config : StorageConfig) (inner : List (String × Nat)) (handle : Nat)
    (hv : mapLookup config.volume_id s.storages = some inner)
    (hs : mapLookup config.name inner = some handle) :
    kill_storage s config = (s, [(handle, StorageMessage.Stop)]) := by
  unfold kill_storage
  rw [hv]
  dsimp only
  rw [hs]

/-- Claim C4 (amended): the built-in `memory` volume is registered at
orchestrator construction — but a `DeleteVolume` for the name `memory` is
not rejected: `kill_volume` has no special case for the built-in volume
and removes it from the volumes map like any other volume. -/
theorem memory_registered_but_deletable (env : Env) (pid : String)
    (config : PluginConfig) (s : StorageRuntimeInner)
    (h : new env pid config = .ok s) :
    (mapLookup "memory" s.volumes).isSome = true ∧
      ∀ (t : StorageRuntimeInner) (v : VolumeConfig), v.name = "memory" →
        mapLookup "memory" (kill_volume t v).1.volumes = none := by
  refine ⟨new_memory_registered env pid config s h, ?_⟩
  intro t v hv
  unfold kill_volume
  dsimp only
  rw [mapLookup_erase, hv, if_pos rfl]

/-- Claim C5 (amended): a volume LoadError during orchestrator
construction is fatal regardless of the `required` flag: the flag is
never consulted, so construction aborts with the load error even for a
volume with `required = false` (here: a volume whose explicit path list
loads nothing). -/
theorem new_aborts_on_nonrequired_load_error (env : Env) (pid nm : String)
    (v : VolumeConfig) (b : Nat)
    (hmem : env.create_memory_backend memoryVolumeConfig = .ok b)
    (hname : v.name ≠ MEMORY_BACKEND_NAME)
    (hpaths : v.paths = some [])
    (hreq : v.required = false) :
    new env pid { name := nm, volumes := [v], storages := [] } =
      .error (pathsFailMsg v.name []) := by
  unfold new
  dsimp only
  rw [spawn_volume_memory env _ memoryVolumeConfig rfl, hmem]
  dsimp only
  show (match (match spawn_volume env _ v with
      | (s', .ok _) => update env s' []
      | (s', .error e) => (s', .error e)) with
    | (s2, .ok _) => Except.ok s2
    | (_, .error e) => Except.error e) = _
  rw [spawn_volume_empty_paths env _ v hname hpaths]

/-- Claim C6 (amended): `spawn_storage` performs no duplicate check. For a
runtime state in which a storage of the given name is already registered
under the volume, an `AddStorage` for the same (volume, storage-name)
pair whose worker starts does not fail: it succeeds and the new control
handle silently replaces the existing one. -/
theorem spawn_storage_replaces_registered (env : Env)
    (s : StorageRuntimeInner) (c : StorageConfig) (backend : VolumeHandle)
    (inner : List (String × Nat)) (h0 h1 : Nat)
    (hvol : mapLookup c.volume_id s.volumes = some backend)
    (hrun : env.create_and_start_storage
      (s.status_key ++ "/storages/" ++ c.name) c backend = .ok h1)
    (hinner : mapLookup c.volume_id s.storages = some inner)
    (hreg : mapLookup c.name inner = some h0) :
    (spawn_storage env s c).2 = .ok () ∧
      mapLookup c.name
        ((mapLookup c.volume_id (spawn_storage env s c).1.storages).getD [])
        = some h1 := by
  have hsp : spawn_storage env s c =
      ({ s with
          storages :=
            mapInsert c.volume_id (mapInsert c.name h1 inner) s.storages },
       .ok ()) := by
    unfold spawn_storage
    dsimp only
    rw [hvol]
    dsimp only
    rw [hrun]
    dsimp only
    rw [hinner]
    rfl
  rw [hsp]
  refine ⟨rfl, ?_⟩
  rw [mapLookup_insert_self]
  exact mapLookup_insert_self _ _ _

end StorageRuntimeInner

/-- Folding list append over a list of suffixes appends their
concatenation. -/
theorem foldl_append_join (suffixes : List (List Char)) :
    ∀ acc : List Char,
      suffixes.foldl (fun a b => a ++ b) acc = acc ++ suffixes.join := by
  induction suffixes with
  | nil => intro acc; simp
  | cons hd tl ih =>
      intro acc
      simp [List.foldl, ih, List.append_assoc]

/-- Truncating an extended list back to the original length recovers the
original list. -/
theorem take_length_append {α : Type} (l t : List α) :
    (l ++ t).take l.length = l := by
  induction l with
  | nil => simp
  | cons a l ih => simp [ih]

/-- Claim C10: for every prefix, suffix list, and closure that only
appends to its argument, `with_extended_string` returns the closure's
result on the suffix-extended prefix and hands back the prefix equal to
its original value (the truncation undoes all appends), so successive
admin-key constructions over the same prefix never leak a previous
iteration's suffixes. -/
theorem with_extended_string_spec {R : Type} (pre : List Char)
    (suffixes : List (List Char)) (closure : List Char → R × List Char)
    (happend : ∀ str, ∃ t, (closure str).2 = str ++ t) :
    with_extended_string pre suffixes closure =
      ((closure (pre ++ suffixes.join)).1, pre) := by
  unfold with_extended_string
  dsimp only
  rw [foldl_append_join]
  obtain ⟨t, ht⟩ := happend (pre ++ suffixes.join)
  rw [ht, List.append_assoc, take_length_append]

namespace StorageRuntimeInner

/-- A concrete external environment: the memory backend constructs,
`libgood.so` loads as library 5, the name search finds `zbackend_fs` as
library 6, both libraries export an entry point that builds backend 9,
and workers start with control handle 8. -/
def env1 : Env :=
  { create_memory_backend := fun _ => .ok 0,
    load_file := fun p =>
      if p = "libgood.so" then some (5, "libgood.so") else none,
    search_and_load := fun n =>
      if n = "zbackend_fs" then some (6, "/usr/lib/zbackend_fs.so") else none,
    get_symbol := fun l =>
      if l = 5 ∨ l = 6 then some (fun _ => .ok 9) else none,
    create_and_start_storage := fun _ _ _ => .ok 8 }

/-- The empty orchestrator state. -/
def s0 : StorageRuntimeInner :=
  { name := "storage_manager", pid := "p", volumes := [], storages := [] }

/-- A volume config selecting its backend by explicit paths, the second
of which loads. -/
def cfg1 : VolumeConfig :=
  { name := "v1", backend := none, paths := some ["libbad.so", "libgood.so"],
    required := true, rest := [] }

/-- Claim C1: for a volume whose backend is selected by explicit paths
and whose second path loads successfully (entry point included), the loop
does stop at the first successful load and registers the handle — but
`spawn_volume` then falls through to the unconditional `bail!` after the
loop and returns the "failed to find a suitable library" LoadError
instead of Ok, contradicting the claim that it returns Ok whenever some
path loads. -/
theorem spawn_volume_by_paths_registers_then_errors :
    mapLookup "v1" (spawn_volume env1 s0 cfg1).1.volumes =
      some (VolumeHandle.new 9 (some 5) "libgood.so") ∧
      (spawn_volume env1 s0 cfg1).2 =
        .error (pathsFailMsg "v1" ["libbad.so", "libgood.so"]) :=
  ⟨rfl, rfl⟩

/-- A volume config resolved by name (no explicit paths). -/
def cfgFs : VolumeConfig :=
  { name := "fs", backend := none, paths := none, required := false,
    rest := [] }

/-- A state in which the volume `fs` is already registered. -/
def sFs : StorageRuntimeInner :=
  { name := "storage_manager", pid := "p",
    volumes := [("fs", VolumeHandle.new 1 none "old")], storages := [] }

/-- Claim C2 counterexample: with volume `fs` already registered,
applying `spawn_volume` for the same name does not fail with an "already
registered" error and does not leave the existing handle (backend 1) in
place: it returns Ok and the freshly loaded handle replaces the old
one. -/
theorem spawn_volume_duplicate_not_rejected_cex :
    (spawn_volume env1 sFs cfgFs).2 = .ok () ∧
      mapLookup "fs" (spawn_volume env1 sFs cfgFs).1.volumes =
        some (VolumeHandle.new 9 (some 6) "/usr/lib/zbackend_fs.so") :=
  ⟨rfl, rfl⟩

/-- Another state with `fs` registered (distinct handle), exercising the
amended C2 theorem at a concrete input. -/
def sFs2 : StorageRuntimeInner :=
  { name := "storage_manager", pid := "p",
    volumes := [("fs", VolumeHandle.new 2 none "older")], storages := [] }

/-- Witness for the amended claim C2 at a concrete input. -/
theorem spawn_volume_replaces_registered_witness :
    (spawn_volume env1 sFs2 cfgFs).2 = .ok () ∧
      mapLookup "fs" (spawn_volume env1 sFs2 cfgFs).1.volumes =
        some (VolumeHandle.new 9 (some 6) "/usr/lib/zbackend_fs.so") :=
  spawn_volume_replaces_registered env1 sFs2 cfgFs
    (VolumeHandle.new 2 none "older") 6 "/usr/lib/zbackend_fs.so"
    (fun _ => .ok 9) 9 (by decide) rfl rfl rfl rfl rfl

/-- A state with volume `v` hosting storage `s1` (control handle 7). -/
def s3 : StorageRuntimeInner :=
  { name := "storage_manager", pid := "p",
    volumes := [("v", VolumeHandle.new 1 none "x")],
    storages := [("v", [("s1", 7)])] }

/-- The storage config for `s1` under volume `v`. -/
def st1 : StorageConfig := { name := "s1", volume_id := "v", key_expr := "a/b" }

/-- Claim C3 counterexample: after `kill_storage` for the registered
storage `s1`, the runtime state is unchanged and the control-handle entry
is still present in the storages map — it is not removed. -/
theorem kill_storage_keeps_entry_cex :
    (kill_storage s3 st1).1 = s3 ∧
      mapLookup "s1" ((mapLookup "v" (kill_storage s3 st1).1.storages).getD [])
        = some 7 :=
  ⟨rfl, rfl⟩

/-- Witness for the amended claim C3 at a concrete input. -/
theorem kill_storage_sends_stop_keeps_entry_witness :
    kill_storage s3 st1 = (s3, [(7, StorageMessage.Stop)]) :=
  kill_storage_sends_stop_keeps_entry s3 st1 [("s1", 7)] 7 rfl rfl

/-- An empty plugin configuration. -/
def cfg0 : PluginConfig :=
  { name := "storage_manager", volumes := [], storages := [] }

/-- The state constructed by `new` from the empty configuration: only the
built-in memory volume. -/
def sMem : StorageRuntimeInner :=
  { name := "storage_manager", pid := "p",
    volumes := [("memory", VolumeHandle.new 0 none "<static-memory>")],
    storages := [] }

/-- Claim C4 counterexample: the memory volume is registered at
construction, yet applying a `DeleteVolume("memory")` diff afterwards is
not rejected: it removes the built-in volume from the volumes map. -/
theorem delete_memory_volume_applied_cex :
    new env1 "p" cfg0 = .ok sMem ∧
      (mapLookup "memory" sMem.volumes).isSome = true ∧
      mapLookup "memory"
        (update env1 sMem [ConfigDiff.DeleteVolume memoryVolumeConfig]).1.volumes
        = none :=
  ⟨rfl, rfl, rfl⟩

/-- Witness for the amended claim C4 at a concrete input. -/
theorem memory_registered_but_deletable_witness :
    (mapLookup "memory" sMem.volumes).isSome = true ∧
      ∀ (t : StorageRuntimeInner) (v : VolumeConfig), v.name = "memory" →
        mapLookup "memory" (kill_volume t v).1.volumes = none :=
  memory_registered_but_deletable env1 "p" cfg0 sMem rfl

/-- A non-required volume whose explicit path list is empty, so loading
fails. -/
def v5 : VolumeConfig :=
  { name := "v5", backend := none, paths := some [], required := false,
    rest := [] }

/-- The plugin configuration containing only the failing volume `v5`. -/
def cfg5 : PluginConfig :=
  { name := "storage_manager", volumes := [v5], storages := [] }

/-- Claim C5 counterexample: `v5` is not required, and yet its LoadError
aborts orchestrator construction — `new` returns the error instead of
succeeding with the volume absent. -/
theorem nonrequired_load_error_fatal_cex :
    v5.required = false ∧
      new env1 "p" cfg5 = .error (pathsFailMsg "v5" []) :=
  ⟨rfl, rfl⟩

/-- Witness for the amended claim C5 at a concrete input. -/
theorem new_aborts_on_nonrequired_load_error_witness :
    new env1 "p" { name := "storage_manager", volumes := [v5], storages := [] }
      = .error (pathsFailMsg v5.name []) :=
  new_aborts_on_nonrequired_load_error env1 "p" "storage_manager" v5 0 rfl
    (by decide) rfl rfl

/-- Claim C6 counterexample: with storage `s1` (handle 7) already
registered under volume `v`, `spawn_storage` for the same pair does not
fail: it returns Ok and the new control handle 8 replaces handle 7. -/
theorem spawn_storage_duplicate_not_rejected_cex :
    (spawn_storage env1 s3 st1).2 = .ok () ∧
      mapLookup "s1"
        ((mapLookup "v" (spawn_storage env1 s3 st1).1.storages).getD [])
        = some 8 :=
  ⟨rfl, rfl⟩

/-- A state with storage `s1` registered under `v` with handle 9. -/
def s6 : StorageRuntimeInner :=
  { name := "storage_manager", pid := "p",
    volumes := [("v", VolumeHandle.new 1 none "x")],
    storages := [("v", [("s1", 9)])] }

/-- Witness for the amended claim C6 at a concrete input. -/
theorem spawn_storage_replaces_registered_witness :
    (spawn_storage env1 s6 st1).2 = .ok () ∧
      mapLookup "s1"
        ((mapLookup "v" (spawn_storage env1 s6 st1).1.storages).getD [])
        = some 8 :=
  spawn_storage_replaces_registered env1 s6 st1 (VolumeHandle.new 1 none "x")
    [("s1", 9)] 9 8 rfl rfl rfl rfl

/-- Witness for claim C7 at a concrete input: a batch that adds the
memory volume, adds a storage on it, then deletes the volume. -/
theorem update_preserves_storages_owned_witness :
    storages_owned
      (update env1 s0
        [ConfigDiff.AddVolume memoryVolumeConfig,
         ConfigDiff.AddStorage { name := "s1", volume_id := "memory", key_expr := "a" },
         ConfigDiff.DeleteVolume memoryVolumeConfig]).1 :=
  update_preserves_storages_owned env1
    [ConfigDiff.AddVolume memoryVolumeConfig,
     ConfigDiff.AddStorage { name := "s1", volume_id := "memory", key_expr := "a" },
     ConfigDiff.DeleteVolume memoryVolumeConfig]
    s0 (by intro v h; simp [s0] at h)

/-- The storage config referencing the absent volume `vx`. -/
def stX : StorageConfig := { name := "sx", volume_id := "vx", key_expr := "k" }

/-- Witness for claim C8 at a concrete input: the batch applies the first
addition, fails on the second (volume `vx` absent), and the trailing diff
is never applied. -/
theorem update_stops_at_first_error_witness :
    update env1 s0
      ([ConfigDiff.AddVolume memoryVolumeConfig]
        ++ ConfigDiff.AddStorage stX :: [ConfigDiff.AddVolume memoryVolumeConfig])
      = (sMem, .error "`vx` volume not found") :=
  update_stops_at_first_error env1 [ConfigDiff.AddVolume memoryVolumeConfig]
    (ConfigDiff.AddStorage stX) [ConfigDiff.AddVolume memoryVolumeConfig]
    s0 sMem sMem "`vx` volume not found" rfl rfl

/-- Witness for claim C10 at a concrete input. -/
theorem with_extended_string_spec_witness :
    with_extended_string ['a', 'b'] [['c'], ['d']]
      (fun str => (str.length, str ++ ['e'])) = (4, ['a', 'b']) := by
  have h := with_extended_string_spec ['a', 'b'] [['c'], ['d']]
    (fun str => (str.length, str ++ ['e'])) (fun str => ⟨['e'], rfl⟩)
  simpa using h

end StorageRuntimeInner
